import Mathlib

/-!
Verification of `src/ingestions/ingest_csvs.py`, a command-line tool that
converts a CSV ingestion manifest into ingest requests POSTed to the OOI
M2M API.  The Python module is shallowly embedded below: each Python
function becomes a Lean definition of the same name, pandas data frames
become lists of `Row` records, the network and the interactive operator
become explicit oracle functions, and Python exceptions become `Option` /
`Except` values.
-/

namespace IngestCsvs

/-- `HTTP_STATUS_OK = 200` (module constant, line 22 of the source). -/
def HTTP_STATUS_OK : Nat := 200

/-- `PRIORITY = 1` (module constant, line 26 of the source). -/
def PRIORITY : Nat := 1

/-- `BASE_URL` (module constant, line 29 of the source). -/
def BASE_URL : String := "https://ooinet.oceanobservatories.org"

/-- A Python value stored in a dict or data-frame cell: a string, an
integer, or pandas' NaN (missing value). -/
inductive PyVal where
  | str (s : String)
  | int (n : Nat)
  | nan
deriving DecidableEq

/-- Python substring containment `needle in hay` for strings: some
contiguous run of `hay`'s characters equals `needle`. -/
def pySubstr (needle hay : String) : Bool :=
  (List.range (hay.data.length + 1)).any fun i =>
    needle.data.isPrefixOf (hay.data.drop i)

/-- Python `a or b` for strings: the empty string is falsy, so the result
is `b` when `a` is empty and `a` otherwise. -/
def pyOrStr (a b : String) : String :=
  if a = "" then b else a

/-- Python `s.split(sep)` for a one-character separator: splits into the
runs between occurrences of `c`; the empty string splits to `[[]]`, and
separators at the ends produce empty segments. -/
def splitChar (c : Char) : List Char → List (List Char)
  | [] => [[]]
  | x :: xs =>
    match splitChar c xs with
    | [] => [[]]
    | h :: t => if x == c then [] :: h :: t else (x :: h) :: t

/-- Decimal value of a digit list, most significant digit first; this is
what Python's `int` returns on a string of decimal digits. -/
def digitsVal (l : List Char) : Nat :=
  l.foldl (fun a c => 10 * a + (c.toNat - '0'.toNat)) 0

/-- Python `int(s)` restricted to the strings that occur here (a possibly
empty run of decimal digits): `ValueError` on the empty string is `none`,
otherwise the decimal value. -/
def pyInt (s : List Char) : Option Nat :=
  if s.isEmpty then none
  else if s.all Char.isDigit then some (digitsVal s) else none

/-- Models `re.sub('.*?([0-9]*)$', r'\1', s)` (line 68 of the source).
The lazy `.*?` expands one character at a time, and at each stop the
greedy `([0-9]*)` followed by the anchor `$` succeeds only when the
characters from the stop to the end of the string are all digits; the
first (least) such stop captures exactly the maximal trailing run of
digits, and the whole string is replaced by that capture (the residual
zero-width match at the end contributes the empty string).  The result is
therefore the maximal trailing digit run of `s`. -/
def reSubTrailing (s : List Char) : List Char :=
  (s.reverse.takeWhile Char.isDigit).reverse

/-- The per-mask body of `get_deployment_number` (lines 67-68):
`int(re.sub('.*?([0-9]*)$', r'\1', fm.split('/')[5]))`.  `none` models the
`IndexError` (fewer than 6 segments) or the `ValueError` (no trailing
digits) the Python raises. -/
def deploymentOfMask (fm : String) : Option Nat :=
  match (splitChar '/' fm.data).get? 5 with
  | none => none
  | some seg => pyInt (reSubTrailing seg)

/-- `get_deployment_number` (lines 56-70): the loop appending
`deploymentOfMask` of each mask in the column, propagating the exception
any mask raises. -/
def get_deployment_number : List String → Option (List Nat)
  | [] => some []
  | fm :: rest =>
    match deploymentOfMask fm, get_deployment_number rest with
    | some d, some ds => some (d :: ds)
    | _, _ => none

/-- One record of the input CSV, restricted to the four columns the
loader reads (`usecols=[0, 1, 2, 3]`).  `filename_mask` is `none` when
the cell is empty (pandas NaN). -/
structure CsvRec where
  filename_mask : Option String
  reference_designator : String
  data_source : String
  parser : String
deriving DecidableEq

/-- One row of the loaded (and later renamed) data frame.  The fields use
the wire-format names installed by the `rename` call in `main` (lines
156-157); the `rename` itself is therefore the identity in this
embedding.  `refDesFinal` is the column added by `main` (line 189),
initialised to the empty string. -/
structure Row where
  fileMask : Option String
  refDes : String
  dataSource : String
  parserDriver : String
  username : String
  deployment : Nat
  state : String
  priority : Nat
  type : String
  refDesFinal : String
deriving DecidableEq

/-- `load_ingest_sheet` (lines 34-53): reads the four CSV columns, adds
the constant columns and the deployment number, and sets `type` from the
ingest-type flag by substring test (`'telemetered' in ingest_type`).
`none` models the exception raised when any mask fails deployment
extraction (or is NaN, on which `.split` raises).  `username` comes from
the external netrc credential store and is passed in explicitly. -/
def load_ingest_sheet (recs : List CsvRec) (ingest_type : String)
    (username : String) : Option (List Row) :=
  match recs.mapM (fun c => c.filename_mask.bind deploymentOfMask) with
  | none => none
  | some deps =>
    some ((recs.zip deps).map fun cd =>
      { fileMask := cd.1.filename_mask
        refDes := cd.1.reference_designator
        dataSource := cd.1.data_source
        parserDriver := cd.1.parser
        username := username
        deployment := cd.2
        state := "RUN"
        priority := PRIORITY
        type := if pySubstr "telemetered" ingest_type then "TELEMETERED"
                else "RECOVERED"
        refDesFinal := "" })

/-- The dict produced by `row[1].to_dict()` for a data-frame row, in
column order.  A NaN file mask becomes `PyVal.nan`. -/
def Row.toDict (r : Row) : List (String × PyVal) :=
  [("fileMask", match r.fileMask with | some s => PyVal.str s | none => PyVal.nan),
   ("refDes", PyVal.str r.refDes),
   ("dataSource", PyVal.str r.dataSource),
   ("parserDriver", PyVal.str r.parserDriver),
   ("username", PyVal.str r.username),
   ("deployment", PyVal.int r.deployment),
   ("state", PyVal.str r.state),
   ("priority", PyVal.int r.priority),
   ("type", PyVal.str r.type),
   ("refDesFinal", PyVal.str r.refDesFinal)]

/-- The nested wire-format request dictionary (`request_dict` in the
source). `options` is `none` when the key is absent. -/
structure RequestDict where
  username : PyVal
  state : PyVal
  ingestRequestFileMasks : List (List (String × PyVal))
  type : PyVal
  priority : PyVal
  options : Option (List (String × PyVal))
deriving DecidableEq

/-- `build_ingest_dict` (lines 73-100): selects the file-mask keys that
are present into `adict`, wraps it in a one-element list, assembles the
top level from `username`, `state`, `type` and `priority` (a missing one
raises `KeyError`, modelled by `none`), and attaches an `options` dict
exactly when at least one of `beginFileDate`, `endFileDate` is present,
containing those of the two that are. -/
def build_ingest_dict (ingest_info : List (String × PyVal)) :
    Option RequestDict :=
  let adict := ["parserDriver", "fileMask", "dataSource", "deployment",
                "refDes", "refDesFinal"].filterMap
    fun k => (ingest_info.lookup k).map fun v => (k, v)
  let option_dict := ["beginFileDate", "endFileDate"].filterMap
    fun k => (ingest_info.lookup k).map fun v => (k, v)
  match ingest_info.lookup "username", ingest_info.lookup "state",
        ingest_info.lookup "type", ingest_info.lookup "priority" with
  | some u, some st, some ty, some pr =>
    some { username := u
           state := st
           ingestRequestFileMasks := [adict]
           type := ty
           priority := pr
           options := if option_dict.isEmpty then none else some option_dict }
  | _, _, _, _ => none

/-- An HTTP response from the ingestion API: status code and (when the
body is JSON) the decoded body. -/
structure Response where
  status : Nat
  body : List (String × PyVal)
deriving DecidableEq

/-- `requests.Response.ok`: true exactly when the status code is below
400 (client/server error threshold). -/
def Response.ok (r : Response) : Bool := r.status < 400

/-- `ingest_data` (lines 103-117): POSTs the request and returns the
response when `r.ok`, otherwise falls through the bare `pass` and returns
`None`.  The response `r` delivered by the remote endpoint is an explicit
argument of the embedding; `url`, `key` and `token` are carried for
fidelity but do not influence the result. -/
def ingest_data (url key token : String) (data_dict : RequestDict)
    (r : Response) : Option Response :=
  if r.ok then some r else none

/-- The fixed allow-list of 8 wildcard reference designators (lines
184-187). -/
def wcard_refdes : List String :=
  ["GA03FLMA-RIM01-02-CTDMOG000", "GA03FLMB-RIM01-02-CTDMOG000",
   "GI03FLMA-RIM01-02-CTDMOG000", "GI03FLMB-RIM01-02-CTDMOG000",
   "GP03FLMA-RIM01-02-CTDMOG000", "GP03FLMB-RIM01-02-CTDMOG000",
   "GS03FLMA-RIM01-02-CTDMOG000", "GS03FLMB-RIM01-02-CTDMOG000"]

/-- The cabled-platform markers (line 164). -/
def cabled : List String :=
  ["RS", "CE02SHBP", "CE04OSBP", "CE04OSPD", "CE04OSPS"]

/-- `re.match(cabled_reg_ex, rd)` with `cabled_reg_ex` the alternation of
the literal markers (line 165): since `re.match` anchors at the start and
the markers contain no regex metacharacters, it succeeds exactly when
some marker is a prefix of `rd`. -/
def matchesCabled (rd : String) : Bool :=
  cabled.any fun p => p.data.isPrefixOf rd.data

/-- Lexicographic (code-point) order on strings as a boolean, the order
pandas uses when sorting a string column ascending. -/
def charsLe : List Char → List Char → Bool
  | [], _ => true
  | _ :: _, [] => false
  | x :: xs, y :: ys => if x == y then charsLe xs ys else decide (x < y)

/-- Sort key of `df.sort_values(['deployment', 'reference_designator'])`
(line 155): deployment first, then reference designator. -/
def rowLe (a b : Row) : Bool :=
  decide (a.deployment < b.deployment) ||
    (a.deployment == b.deployment && charsLe a.refDes.data b.refDes.data)

/-- Insert into a sorted list (helper of the sort). -/
def insort {α : Type} (le : α → α → Bool) (x : α) : List α → List α
  | [] => [x]
  | y :: ys => if le x y then x :: y :: ys else y :: insort le x ys

/-- Comparison sort used to model `sort_values` / `list.sort` (ordering
among equal keys is unspecified in pandas' default quicksort, and no
property proved here depends on it). -/
def isort {α : Type} (le : α → α → Bool) : List α → List α
  | [] => []
  | x :: xs => insort le x (isort le xs)

/-- `pd.unique(df.refDes.ravel())` followed by `sort` (lines 160-161):
the distinct reference designators of the rows, sorted. -/
def uniqueRefDes (rows : List Row) : List String :=
  isort (fun a b => charsLe a.data b.data) (rows.map Row.refDes).dedup

/-- `cabled_ref_des` (lines 166-169): the unique reference designators
matching a cabled marker. -/
def cabled_ref_des (rows : List Row) : List String :=
  (uniqueRefDes rows).filter matchesCabled

/-- The drop loop of lines 173-176: for each matched designator, remove
the rows carrying it (a no-op when the matched list is empty, as the
`if cabled_ref_des:` guard makes explicit in the source). -/
def dropCabled (rows : List Row) : List Row :=
  (cabled_ref_des rows).foldl
    (fun acc x => acc.filter fun r => decide (r.refDes ≠ x)) rows

/-- The filter stage of `main` (lines 154-176): sort by (deployment,
reference designator), rename to wire-format column names (the identity
here, see `Row`), keep rows whose file mask is not null
(`pd.notnull(df['fileMask'])`), then drop cabled-platform rows. -/
def filteredRows (rows : List Row) : List Row :=
  dropCabled ((isort rowLe rows).filter fun r => r.fileMask.isSome)

/-- The row value used by the loop body after the `refDesFinal` step
(lines 192-202): entries whose parser contains `#` are skipped without
assignment, entries with a truthy (non-empty) parser get `refDesFinal`
set to `"false"` on the wildcard allow-list and `"true"` otherwise, and
entries with an empty parser are skipped without assignment. -/
def processedRow (r : Row) : Row :=
  if pySubstr "#" r.parserDriver then r
  else if r.parserDriver ≠ "" then
    { r with refDesFinal := if r.refDes ∈ wcard_refdes then "false" else "true" }
  else r

/-- A result row appended to `ingest_df` (lines 211-220): the decoded
JSON response plus the originating row's metadata columns. -/
structure ResultRecord where
  responseFields : List (String × PyVal)
  referenceDesignator : String
  state : String
  type : String
  deployment : Nat
  username : String
  priority : Nat
  refDesFinal : String
  fileMask : Option String
deriving DecidableEq

/-- The submission loop of `main` (lines 191-225).  `review` is the
operator's answer to the confirmation prompt for a row, `resp` the HTTP
response the endpoint returns to the POST for a row; both are explicit
oracles.  The first component accumulates the requests actually POSTed;
the second is the surviving accumulator, or `Except.error r` when the
iteration for row `r` raises (a `KeyError` from `build_ingest_dict`, or
the `AttributeError` from calling `.json()` on the `None` that
`ingest_data` returns for a failed submission) — the exception aborts the
whole run and loses the accumulator. -/
def runLoop (key token : String) (review : Row → String)
    (resp : Row → Response) :
    List Row → List RequestDict → List ResultRecord →
    List RequestDict × Except Row (List ResultRecord)
  | [], posts, recs => (posts, Except.ok recs)
  | r :: rest, posts, recs =>
    if pySubstr "#" r.parserDriver then
      runLoop key token review resp rest posts recs
    else if r.parserDriver ≠ "" then
      let row := processedRow r
      match build_ingest_dict row.toDict with
      | none => (posts, Except.error r)
      | some d =>
        let answer := pyOrStr (review r) "y"
        if pySubstr "y" answer then
          let posts' := posts ++ [d]
          match ingest_data BASE_URL key token d (resp r) with
          | none => (posts', Except.error r)
          | some rr =>
            runLoop key token review resp rest posts'
              (recs ++ [{ responseFields := rr.body
                          referenceDesignator := row.refDes
                          state := row.state
                          type := row.type
                          deployment := row.deployment
                          username := row.username
                          priority := row.priority
                          refDesFinal := row.refDesFinal
                          fileMask := row.fileMask }])
        else
          runLoop key token review resp rest posts recs
    else
      runLoop key token review resp rest posts recs

/-- Outcome of one run of `main` past the argument parsing and load:
whether the early all-cabled return was taken, the requests POSTed, the
final accumulator (or the row whose iteration raised), and whether the
result CSV was written. -/
structure RunOutcome where
  earlyExit : Bool
  posts : List RequestDict
  result : Except Row (List ResultRecord)
  wroteFile : Bool

/-- `main` from line 154 on, applied to already-loaded rows: filter, the
empty-after-filter early return (lines 179-181, no file written, no
POST), the `df['refDesFinal'] = ''` column initialisation (line 189), the
submission loop, and the final `to_csv` (line 230), which is reached only
when the loop does not raise. -/
def mainRun (rows : List Row) (key token : String) (review : Row → String)
    (resp : Row → Response) : RunOutcome :=
  let df := filteredRows rows
  if df.isEmpty then
    { earlyExit := true, posts := [], result := Except.ok [], wroteFile := false }
  else
    match runLoop key token review resp
        (df.map fun r => { r with refDesFinal := "" }) [] [] with
    | (posts, Except.ok recs) =>
      { earlyExit := false, posts := posts, result := Except.ok recs,
        wroteFile := true }
    | (posts, Except.error r) =>
      { earlyExit := false, posts := posts, result := Except.error r,
        wroteFile := false }

/-! Concrete values used by the closed-form checks below. -/

/-- A representative uncabled, enabled manifest row. -/
def maskRow : Row :=
  { fileMask := some "omc/CP01CNSM/D00001/cg_data/dcl27/adcpt_1.log"
    refDes := "CP01CNSM-MFD35-04-ADCPTM000"
    dataSource := "recovered_host"
    parserDriver := "mi.dataset.driver.adcpt.adcpt_recovered_driver"
    username := "user"
    deployment := 1
    state := "RUN"
    priority := 1
    type := "RECOVERED"
    refDesFinal := "" }

/-- A row whose file mask is present but is the empty string. -/
def emptyMaskRow : Row :=
  { maskRow with fileMask := some "", refDes := "CP01CNSM-RID26-04-VELPTA000" }

/-- A row on a cabled platform (reference designator starts with `RS`). -/
def cabledRow : Row :=
  { maskRow with refDes := "RS03AXBS-LJ03A-12-CTDPFB301" }

/-- A commented-out (disabled) row: its parser cell contains `#` and its
reference designator is not on the wildcard allow-list. -/
def disabledRow : Row :=
  { maskRow with parserDriver := "#mi.dataset.driver.ctdmo" }

/-- First row of the failure-path scenario (its submission gets HTTP 500). -/
def rowA : Row :=
  { maskRow with deployment := 1, refDes := "CP01CNSM-MFD35-04-ADCPTM000" }

/-- Second row of the failure-path scenario (its submission would get
HTTP 200). -/
def rowB : Row :=
  { maskRow with deployment := 2, refDes := "CP02PMCI-WFP01-03-CTDPFK000" }

/-- Response oracle of the failure-path scenario: HTTP 500 for
deployment 1, HTTP 200 with a JSON body for everything else. -/
def respEx : Row → Response := fun r =>
  if r.deployment == 1 then { status := 500, body := [] }
  else { status := 200, body := [("id", PyVal.int 7)] }

/-- A concrete request body. -/
def reqEx : RequestDict :=
  { username := PyVal.str "user"
    state := PyVal.str "RUN"
    ingestRequestFileMasks := [[]]
    type := PyVal.str "TELEMETERED"
    priority := PyVal.int 1
    options := none }

/-- A concrete row mapping with a `beginFileDate` but no `endFileDate`. -/
def infoEx : List (String × PyVal) :=
  [("username", PyVal.str "user"), ("state", PyVal.str "RUN"),
   ("type", PyVal.str "TELEMETERED"), ("priority", PyVal.int 1),
   ("fileMask", PyVal.str "mask"),
   ("beginFileDate", PyVal.str "2020-01-01T00:00:00")]

/-- The request `build_ingest_dict` produces from `infoEx`. -/
def dEx : RequestDict :=
  { username := PyVal.str "user"
    state := PyVal.str "RUN"
    ingestRequestFileMasks := [[("fileMask", PyVal.str "mask")]]
    type := PyVal.str "TELEMETERED"
    priority := PyVal.int 1
    options := some [("beginFileDate", PyVal.str "2020-01-01T00:00:00")] }

/-- A concrete CSV record. -/
def recEx : CsvRec :=
  { filename_mask := some "omc/CP01CNSM/D00203/cg_data/dcl27/CE01ISSM_203"
    reference_designator := "CP01CNSM-MFD35-04-ADCPTM000"
    data_source := "recovered_host"
    parser := "mi.dataset.driver.adcpt.adcpt_recovered_driver" }

/-- The row `load_ingest_sheet` builds from `recEx` with the
`telemetered` flag and user `"user"`. -/
def rowTEx : Row :=
  { fileMask := some "omc/CP01CNSM/D00203/cg_data/dcl27/CE01ISSM_203"
    refDes := "CP01CNSM-MFD35-04-ADCPTM000"
    dataSource := "recovered_host"
    parserDriver := "mi.dataset.driver.adcpt.adcpt_recovered_driver"
    username := "user"
    deployment := 203
    state := "RUN"
    priority := 1
    type := "TELEMETERED"
    refDesFinal := "" }

/-! ### Helper lemmas -/

/-- `pySubstr` is substring containment: it holds exactly when the needle
is a contiguous infix of the haystack. -/
theorem pySubstr_iff (needle hay : String) :
    pySubstr needle hay = true ↔ needle.data <:+: hay.data := by
  unfold pySubstr
  rw [List.any_eq_true]
  constructor
  · rintro ⟨i, _, hpre⟩
    rw [ List.isPrefixOf_iff_prefix] at hpre
    rw [ List.infix_iff_prefix_suffix]
    exact ⟨hay.data.drop i, hpre, List.drop_suffix i hay.data⟩
  · rintro ⟨s, t, hst⟩
    refine ⟨s.length, ?_, ?_⟩
    · rw [List.mem_range]
      have : s.length ≤ hay.data.length := by
        rw [← hst]; simp
      omega
    · rw [ List.isPrefixOf_iff_prefix]
      rw [← hst, List.append_assoc, List.drop_left]
      exact ⟨t, rfl⟩

/-- A one-character list is an infix exactly when the character occurs. -/
theorem singleton_infix_iff (c : Char) (l : List Char) :
    [c] <:+: l ↔ c ∈ l := by
  constructor
  · rintro ⟨u, v, rfl⟩; simp
  · intro h
    obtain ⟨u, v, rfl⟩ := List.append_of_mem h
    exact ⟨u, v, by simp⟩

/-- Python `c in s` for one character, as character membership. -/
theorem pySubstr_char_mem (c : Char) (s : String) :
    pySubstr (String.mk [c]) s = true ↔ c ∈ s.data :=
  (pySubstr_iff (String.mk [c]) s).trans (singleton_infix_iff c s.data)

/-- `takeWhile` of a list whose head fails the predicate is empty. -/
theorem takeWhile_head_false {p : Char → Bool} {l : List Char}
    (h : l.head?.all (fun c => !p c) = true) : l.takeWhile p = [] := by
  cases l with
  | nil => rfl
  | cons x xs =>
    simp only [List.head?, Option.all] at h
    rw [List.takeWhile_cons_of_neg]
    simp only [Bool.not_eq_true'] at h
    simp [h]

/-- The maximal trailing digit run: appending a digit run after a list
not ending in a digit extracts exactly that run. -/
theorem reSubTrailing_append (pre ds : List Char)
    (hdig : ds.all Char.isDigit = true)
    (hpre : pre.getLast?.all (fun c => !c.isDigit) = true) :
    reSubTrailing (pre ++ ds) = ds := by
  unfold reSubTrailing
  rw [List.reverse_append]
  rw [List.takeWhile_append_of_pos]
  · rw [takeWhile_head_false (by rw [List.head?_reverse]; exact hpre)]
    simp
  · intro a ha
    rw [List.mem_reverse] at ha
    exact List.all_eq_true.mp hdig a ha

/-- `pyInt` on a non-empty all-digit string yields its decimal value. -/
theorem pyInt_all_digits (l : List Char) (hdig : l.all Char.isDigit = true)
    (hne : l ≠ []) : pyInt l = some (digitsVal l) := by
  unfold pyInt
  rw [if_neg, if_pos hdig]
  simp [List.isEmpty_eq_true, hne]

/-- `get_deployment_number` on a one-mask column. -/
theorem get_deployment_number_singleton (fm : String) :
    get_deployment_number [fm] = (deploymentOfMask fm).map fun d => [d] := by
  cases h : deploymentOfMask fm <;>
    simp [get_deployment_number, h]

/-- Membership in an `insort`. -/
theorem mem_insort {α : Type} (le : α → α → Bool) (x a : α) (l : List α) :
    a ∈ insort le x l ↔ a = x ∨ a ∈ l := by
  induction l with
  | nil => simp [insort]
  | cons y ys ih =>
    unfold insort
    cases h : le x y
    · simp only [Bool.false_eq_true, if_false, List.mem_cons, ih]
      tauto
    · simp [List.mem_cons]

/-- `isort` preserves membership. -/
theorem mem_isort {α : Type} (le : α → α → Bool) (l : List α) (a : α) :
    a ∈ isort le l ↔ a ∈ l := by
  induction l with
  | nil => simp [isort]
  | cons x xs ih => simp [isort, mem_insort, ih]

/-- Membership after the sequence of equality-filters `dropCabled`
performs: the row was already there and its designator equals none of the
dropped ones. -/
theorem mem_dropList (r : Row) (xs : List String) :
    ∀ rows : List Row,
      r ∈ xs.foldl (fun acc x => acc.filter fun rr => decide (rr.refDes ≠ x)) rows →
      r ∈ rows ∧ ∀ x ∈ xs, r.refDes ≠ x := by
  induction xs with
  | nil =>
    intro rows h
    exact ⟨by simpa using h, by simp⟩
  | cons x xs ih =>
    intro rows h
    rw [List.foldl_cons] at h
    obtain ⟨h1, h2⟩ := ih _ h
    rw [List.mem_filter] at h1
    obtain ⟨hmem, hx⟩ := h1
    refine ⟨hmem, ?_⟩
    intro z hz
    rcases List.mem_cons.mp hz with rfl | hz'
    · exact of_decide_eq_true hx
    · exact h2 z hz'

/-- `build_ingest_dict` applied to a full row dict always succeeds, with
`adict` listing the six file-mask keys in tuple order and no `options`. -/
theorem build_ingest_dict_toDict (row : Row) :
    build_ingest_dict row.toDict = some
      { username := PyVal.str row.username
        state := PyVal.str row.state
        ingestRequestFileMasks :=
          [[("parserDriver", PyVal.str row.parserDriver),
            ("fileMask", match row.fileMask with
                         | some s => PyVal.str s
                         | none => PyVal.nan),
            ("dataSource", PyVal.str row.dataSource),
            ("deployment", PyVal.int row.deployment),
            ("refDes", PyVal.str row.refDes),
            ("refDesFinal", PyVal.str row.refDesFinal)]]
        type := PyVal.str row.type
        priority := PyVal.int row.priority
        options := none } := rfl

/-! ### The claims -/

/-- C1: for every filename mask whose 6th `/`-delimited segment ends in a
run of digits, `get_deployment_number` returns exactly the integer formed
by those trailing digits; for every mask whose 6th segment has no
trailing digits, extraction yields a parse failure (`none`, the
`ValueError` of `int('')`), not a silent zero or default.  The segment is
given as `pre ++ ds` with `ds` the maximal trailing digit run (`ds` all
digits, `pre` not ending in a digit). -/
theorem deployment_number_extraction (fm : String) (pre ds : List Char)
    (hseg : (splitChar '/' fm.data).get? 5 = some (pre ++ ds))
    (hdig : ds.all Char.isDigit = true)
    (hpre : pre.getLast?.all (fun c => !c.isDigit) = true) :
    (ds ≠ [] → get_deployment_number [fm] = some [digitsVal ds]) ∧
    (ds = [] → get_deployment_number [fm] = none) := by
  have hdom : deploymentOfMask fm = pyInt ds := by
    unfold deploymentOfMask
    rw [hseg]
    show pyInt (reSubTrailing (pre ++ ds)) = pyInt ds
    rw [reSubTrailing_append pre ds hdig hpre]
  constructor
  · intro hne
    rw [get_deployment_number_singleton, hdom,
        pyInt_all_digits ds hdig hne]
    rfl
  · intro he
    subst he
    rw [get_deployment_number_singleton, hdom]
    rfl

/-- C1 witness: a mask whose 6th segment is `CE01ISSM_203` yields
deployment 203. -/
theorem deployment_number_extraction_witness :
    get_deployment_number ["omc/CP01CNSM/D00203/cg_data/dcl27/CE01ISSM_203"] =
      some [203] :=
  (deployment_number_extraction "omc/CP01CNSM/D00203/cg_data/dcl27/CE01ISSM_203"
    "CE01ISSM_".data "203".data (by decide) (by decide) (by decide)).1 (by decide)

/-- C2: the claim says a confirmed submission answered with HTTP 500 is
recorded as FAILED and the run continues to the next row.  The code does
the opposite: `ingest_data` returns `None` for the failed POST, the
subsequent `r.json()` raises an unhandled `AttributeError`, and the run
aborts — evaluated here on a two-row manifest whose first confirmed
submission gets HTTP 500: the run ends in the raised error on `rowA`,
only one POST is ever made (`rowB` is never processed), and no result
file is written (no row is recorded as FAILED, the accumulator is lost). -/
theorem http500_aborts_run :
    (mainRun [rowA, rowB] "key" "token" (fun _ => "") respEx).result =
      Except.error rowA ∧
    (mainRun [rowA, rowB] "key" "token" (fun _ => "") respEx).posts.length = 1 ∧
    (mainRun [rowA, rowB] "key" "token" (fun _ => "") respEx).wroteFile = false :=
  ⟨rfl, rfl, rfl⟩

/-- C3 counterexample: the claim says `ingest_data` returns nothing for
every non-2xx status, and returns the response exactly at status 200.
But `requests`' `r.ok` is `status < 400`, so the non-2xx status 304 makes
`ingest_data` return the response. -/
theorem ingest_data_304_returns_response :
    ingest_data BASE_URL "key" "token" reqEx { status := 304, body := [] } =
      some { status := 304, body := [] } ∧
    HTTP_STATUS_OK ≠ 304 ∧ 299 < 304 := by decide

/-- C3 (amended): `ingest_data` returns the response exactly when
`r.ok` holds, i.e. when the HTTP status is below 400, and returns `None`
exactly when the status is 400 or above. -/
theorem ingest_data_returns_iff_ok (url key token : String)
    (d : RequestDict) (r : Response) :
    (ingest_data url key token d r = some r ↔ r.status < 400) ∧
    (ingest_data url key token d r = none ↔ 400 ≤ r.status) := by
  refine ⟨?_, ?_⟩ <;>
    by_cases h : r.status < 400 <;>
      (simp [ingest_data, Response.ok, h]; try omega)

/-- C4 counterexample: a row whose file mask is present but equal to the
empty string survives the filter stage (`pd.notnull` only removes null),
refuting the claim that empty-string masks are dropped. -/
theorem empty_mask_row_retained :
    emptyMaskRow ∈ filteredRows [emptyMaskRow] ∧
    emptyMaskRow.fileMask = some "" := by decide

/-- C4 (amended): the filter stage drops every row whose file mask is
null; no null-mask row appears in the filtered output (rows whose mask is
the empty string are retained, see the counterexample). -/
theorem filtered_mask_not_null (rows : List Row) (r : Row)
    (hr : r ∈ filteredRows rows) : r.fileMask ≠ none := by
  unfold filteredRows dropCabled at hr
  obtain ⟨hmem, -⟩ := mem_dropList r _ _ hr
  rw [List.mem_filter] at hmem
  intro hnone
  have h2 := hmem.2
  rw [hnone] at h2
  simp at h2

/-- C4 witness: a concrete surviving row has a non-null mask. -/
theorem filtered_mask_not_null_witness : maskRow.fileMask ≠ none :=
  filtered_mask_not_null [maskRow] maskRow (by decide)

/-- C5: after the filter stage no remaining row's reference designator is
equal to or prefixed by a cabled-platform marker (`RS`, `CE02SHBP`,
`CE04OSBP`, `CE04OSPD`, `CE04OSPS`), for every input manifest. -/
theorem cabled_never_in_output (rows : List Row) (r : Row)
    (hr : r ∈ filteredRows rows) (p : String) (hp : p ∈ cabled) :
    p.data.isPrefixOf r.refDes.data = false := by
  unfold filteredRows dropCabled at hr
  obtain ⟨hmem, hall⟩ := mem_dropList r _ _ hr
  cases hq : p.data.isPrefixOf r.refDes.data
  · rfl
  · exfalso
    have hmatch : matchesCabled r.refDes = true := by
      unfold matchesCabled
      rw [List.any_eq_true]
      exact ⟨p, hp, hq⟩
    have huniq : r.refDes ∈
        uniqueRefDes ((isort rowLe rows).filter fun rr => rr.fileMask.isSome) := by
      unfold uniqueRefDes
      rw [mem_isort, List.mem_dedup]
      exact List.mem_map_of_mem Row.refDes hmem
    have hcrd : r.refDes ∈
        cabled_ref_des ((isort rowLe rows).filter fun rr => rr.fileMask.isSome) := by
      unfold cabled_ref_des
      rw [List.mem_filter]
      exact ⟨huniq, hmatch⟩
    exact hall _ hcrd rfl

/-- C5 witness: a concrete surviving row is not `RS`-prefixed. -/
theorem cabled_never_in_output_witness :
    "RS".data.isPrefixOf maskRow.refDes.data = false :=
  cabled_never_in_output [maskRow] maskRow (by decide) "RS" (by decide)

/-- C6 counterexample: the claim says every input row's `refDesFinal` is
`"false"` for the 8 wildcard designators and `"true"` otherwise; but a
row whose parser cell contains `#` is skipped before the assignment, so
its `refDesFinal` stays the initialised empty string even though its
designator is not on the allow-list. -/
theorem disabled_row_keeps_empty_refDesFinal :
    pySubstr "#" disabledRow.parserDriver = true ∧
    disabledRow.refDes ∉ wcard_refdes ∧
    (processedRow disabledRow).refDesFinal = "" := by decide

/-- C6 (amended): for every row whose parser cell is non-empty and free
of `#` (the rows the loop actually processes), `refDesFinal` is assigned
`"false"` exactly when the reference designator is one of the 8 wildcard
designators and `"true"` otherwise; disabled rows keep the initial empty
string (see the counterexample). -/
theorem refDesFinal_assignment_enabled (r : Row)
    (h1 : pySubstr "#" r.parserDriver = false) (h2 : r.parserDriver ≠ "") :
    (processedRow r).refDesFinal =
      (if r.refDes ∈ wcard_refdes then "false" else "true") ∧
    ((processedRow r).refDesFinal = "false" ↔ r.refDes ∈ wcard_refdes) := by
  have hpr : processedRow r =
      { r with refDesFinal := if r.refDes ∈ wcard_refdes then "false" else "true" } := by
    unfold processedRow
    rw [h1]
    simp [h2]
  rw [hpr]
  refine ⟨rfl, ?_⟩
  by_cases hm : r.refDes ∈ wcard_refdes <;> simp [hm]

/-- C6 witness: a concrete enabled row off the allow-list gets `"true"`. -/
theorem refDesFinal_assignment_enabled_witness :
    (processedRow maskRow).refDesFinal =
      (if maskRow.refDes ∈ wcard_refdes then "false" else "true") ∧
    ((processedRow maskRow).refDesFinal = "false" ↔ maskRow.refDes ∈ wcard_refdes) :=
  refDesFinal_assignment_enabled maskRow (by decide) (by decide)

/-- Python `'y' in review` on a string. -/
theorem pySubstr_y_iff (s : String) : pySubstr "y" s = true ↔ 'y' ∈ s.data := by
  rw [pySubstr_iff]
  have h : "y".data = ['y'] := rfl
  rw [h]
  exact singleton_infix_iff 'y' s.data

/-- C7: the request built by `build_ingest_dict` contains an `options`
key if and only if the row contains `beginFileDate` or `endFileDate`,
and when present, `options` holds exactly those of the two keys present
in the row, with their values. -/
theorem build_options_exactly (info : List (String × PyVal)) (d : RequestDict)
    (h : build_ingest_dict info = some d) :
    (d.options = none ↔
      (info.lookup "beginFileDate" = none ∧ info.lookup "endFileDate" = none)) ∧
    (∀ opts, d.options = some opts →
      opts.lookup "beginFileDate" = info.lookup "beginFileDate" ∧
      opts.lookup "endFileDate" = info.lookup "endFileDate" ∧
      ∀ kv ∈ opts, kv.1 = "beginFileDate" ∨ kv.1 = "endFileDate") := by
  unfold build_ingest_dict at h
  split at h
  · injection h with h
    subst h
    cases hb : info.lookup "beginFileDate" <;>
      cases he : info.lookup "endFileDate" <;>
        (simp [hb, he, List.lookup]; try tauto)
  · exact absurd h (by simp)

/-- C7 witness: a concrete row with only `beginFileDate` present. -/
theorem build_options_exactly_witness :
    dEx.options = none ↔
      (infoEx.lookup "beginFileDate" = none ∧ infoEx.lookup "endFileDate" = none) :=
  (build_options_exactly infoEx dEx (by decide)).1

/-- C8: for a row the loop processes, an empty confirmation response
defaults to yes and any response containing `y` causes the one built
request to be POSTed; a non-empty response without `y` causes the row to
be skipped: no network call is made and nothing is recorded. -/
theorem confirmation_gate (key token : String) (review : Row → String)
    (resp : Row → Response) (r : Row)
    (h1 : pySubstr "#" r.parserDriver = false) (h2 : r.parserDriver ≠ "") :
    ((review r = "" ∨ 'y' ∈ (review r).data) →
      (runLoop key token review resp [r] [] []).1 =
        (build_ingest_dict (processedRow r).toDict).toList) ∧
    ((review r ≠ "" ∧ 'y' ∉ (review r).data) →
      (runLoop key token review resp [r] [] []).1 = [] ∧
      (runLoop key token review resp [r] [] []).2 = Except.ok []) := by
  have hD := build_ingest_dict_toDict (processedRow r)
  constructor
  · intro hor
    have hys : pySubstr "y" (pyOrStr (review r) "y") = true := by
      rcases hor with hrev | hy
      · rw [hrev]; rfl
      · have hne : review r ≠ "" := by
          intro he; rw [he] at hy; simp at hy
        unfold pyOrStr
        rw [if_neg hne]
        exact (pySubstr_y_iff (review r)).mpr hy
    simp only [runLoop, h1, Bool.false_eq_true, if_false, hD, hys, if_true,
      reduceIte, h2, ne_eq, not_false_eq_true]
    cases hrr : ingest_data BASE_URL key token _ (resp r) <;>
      simp [runLoop, hrr]
  · rintro ⟨hne, hy⟩
    have hyn : pySubstr "y" (pyOrStr (review r) "y") = false := by
      unfold pyOrStr
      rw [if_neg hne]
      cases hq : pySubstr "y" (review r)
      · rfl
      · exact absurd ((pySubstr_y_iff (review r)).mp hq) hy
    constructor <;>
      simp [runLoop, h1, h2, hD, hyn]

/-- C8 witness: for a concrete enabled row and the response `n`, no POST
is made and nothing is recorded. -/
theorem confirmation_gate_witness :
    (runLoop "key" "token" (fun _ => "n")
        (fun _ => { status := 200, body := [] }) [maskRow] [] []).1 = [] ∧
    (runLoop "key" "token" (fun _ => "n")
        (fun _ => { status := 200, body := [] }) [maskRow] [] []).2 = Except.ok [] :=
  (confirmation_gate "key" "token" (fun _ => "n")
    (fun _ => { status := 200, body := [] }) maskRow (by decide) (by decide)).2
    (by decide)

/-- C9: when every row is filtered out, the run takes the early return:
it terminates successfully, makes no network call, and writes no result
file. -/
theorem empty_after_filter_clean_exit (rows : List Row) (key token : String)
    (review : Row → String) (resp : Row → Response)
    (h : filteredRows rows = []) :
    mainRun rows key token review resp =
      { earlyExit := true, posts := [], result := Except.ok [],
        wroteFile := false } := by
  unfold mainRun
  rw [h]
  rfl

/-- C9 witness: a manifest holding only a cabled-platform row exits
cleanly with no POST and no file. -/
theorem empty_after_filter_clean_exit_witness :
    mainRun [cabledRow] "key" "token" (fun _ => "")
        (fun _ => { status := 200, body := [] }) =
      { earlyExit := true, posts := [], result := Except.ok [],
        wroteFile := false } :=
  empty_after_filter_clean_exit [cabledRow] "key" "token" (fun _ => "")
    (fun _ => { status := 200, body := [] }) (by decide)

/-- C10: the loader assigns type `"TELEMETERED"` exactly when the string
`telemetered` occurs as a substring of the `ingest_type` argument, and
`"RECOVERED"` for every other argument (substring containment, not
equality, decides the branch). -/
theorem load_type_substring (recs : List CsvRec) (ingest_type username : String)
    (rows : List Row) (h : load_ingest_sheet recs ingest_type username = some rows)
    (r : Row) (hr : r ∈ rows) :
    (r.type = "TELEMETERED" ↔ "telemetered".data <:+: ingest_type.data) ∧
    (¬ "telemetered".data <:+: ingest_type.data → r.type = "RECOVERED") := by
  unfold load_ingest_sheet at h
  cases hm : recs.mapM (fun c => c.filename_mask.bind deploymentOfMask) with
  | none => rw [hm] at h; exact absurd h (by simp)
  | some deps =>
    rw [hm] at h
    simp only [Option.some.injEq] at h
    subst h
    rw [List.mem_map] at hr
    obtain ⟨cd, hcd, hfr⟩ := hr
    subst hfr
    by_cases ht : pySubstr "telemetered" ingest_type = true
    · have hinf := (pySubstr_iff "telemetered" ingest_type).mp ht
      exact ⟨by simp [ht, hinf], fun hno => absurd hinf hno⟩
    · have htf : pySubstr "telemetered" ingest_type = false := by
        cases hq : pySubstr "telemetered" ingest_type
        · rfl
        · exact absurd hq ht
      have hninf : ¬ "telemetered".data <:+: ingest_type.data := fun hin =>
        ht ((pySubstr_iff "telemetered" ingest_type).mpr hin)
      exact ⟨by simp [htf, hninf], fun _ => by simp [htf]⟩

/-- C10 witness: loading with flag `telemetered` marks the row
`TELEMETERED`. -/
theorem load_type_substring_witness :
    (rowTEx.type = "TELEMETERED" ↔ "telemetered".data <:+: "telemetered".data) ∧
    (¬ "telemetered".data <:+: "telemetered".data → rowTEx.type = "RECOVERED") :=
  load_type_substring [recEx] "telemetered" "user" [rowTEx] (by decide)
    rowTEx (by decide)

end IngestCsvs
